import Mathlib

/-!
Verification of the client-side query-execution and observability core of the
cosmos-explorer repository: partition-key extraction, the diagnostic node tree,
and the GROUP BY endpoint component, shallowly embedded from the sources under
src/.  Collaborator code that is not part of the provided sources (sentinel
literals, path parsing, aggregators, header utilities, the diagnostic context)
is modelled from the specification and marked as such in its doc comment.
-/

set_option maxRecDepth 4000

/- ===================== Partition key extraction ===================== -/

/-- Modelled from the spec: document values.  `documents.js` (not among the
provided sources) defines `NullPartitionKeyLiteral` and
`NonePartitionKeyLiteral`; per the spec these are distinct marker values for
"path present but explicitly null" and "path absent", both distinct from
ordinary JSON null.  Objects are ordered field lists as in JS. -/
inductive DocVal where
  | str (s : String)
  | num (n : Int)
  | boolean (b : Bool)
  | null
  | nullSentinel
  | noneSentinel
  | obj (fields : List (String × DocVal))

/-- Field lookup in a JS object, the `part in obj` / `obj[part]` pair. -/
def lookupField : List (String × DocVal) → String → Option DocVal
  | [], _ => none
  | (k, v) :: rest, part => if k = part then some v else lookupField rest part

/-- Modelled from the spec: `parsePath` (common helpers, not among the provided
sources) splits a JSON-pointer-like path such as "/a/b" into its segments. -/
def parsePathAux : List Char → List Char → List String
  | [], acc => if acc.isEmpty then [] else [String.mk acc.reverse]
  | c :: rest, acc =>
    if c = '/' then
      if acc.isEmpty then parsePathAux rest []
      else String.mk acc.reverse :: parsePathAux rest []
    else parsePathAux rest (c :: acc)

/-- Modelled from the spec: split a path into segments on slashes. -/
def parsePath (path : String) : List String :=
  parsePathAux path.toList []

/-- The segment-walking loop of `extractPartitionKey` (`extractPartitionKey.js`
lines 44-52): while the current value is a non-null object containing the
segment, descend; otherwise the value becomes undefined (`none`) and the loop
breaks. -/
def walkPath : Option DocVal → List String → Option DocVal
  | cur, [] => cur
  | some (DocVal.obj fields), part :: rest =>
    match lookupField fields part with
    | some v => walkPath (some v) rest
    | none => none
  | _, _ :: _ => none

/-- `extractPartitionKey(path, obj)` (`extractPartitionKey.js` lines 42-63):
walk the parsed path, then classify the landed-on value: scalars pass through,
the null sentinel maps to itself, undefined or the none literal map to the
none sentinel, anything else (ordinary JSON null, objects) is unsupported and
yields undefined (`none`). -/
def extractPartitionKey (path : String) (document : DocVal) : Option DocVal :=
  match walkPath (some document) (parsePath path) with
  | some (DocVal.str s) => some (DocVal.str s)
  | some (DocVal.num n) => some (DocVal.num n)
  | some (DocVal.boolean b) => some (DocVal.boolean b)
  | some DocVal.nullSentinel => some DocVal.nullSentinel
  | none => some DocVal.noneSentinel
  | some DocVal.noneSentinel => some DocVal.noneSentinel
  | some DocVal.null => none
  | some (DocVal.obj _) => none

/-- A partition key definition: ordered path list (absent when the schema is
malformed) plus the system-key flag. -/
structure PartitionKeyDefinition where
  paths : Option (List String)
  systemKey : Option Bool

/-- Modelled from the spec: the default single partition key path constant
(`common/partitionKeys`, not among the provided sources). -/
def DEFAULT_PARTITION_KEY_PATH : String := "/id"

/-- `extractPartitionKeys(document, partitionKeyDefinition)`
(`extractPartitionKey.js` lines 17-41), embedded exactly as written: the
well-formedness guard, the system-key short circuit, the default-path fast
path, and the `paths.forEach` loop.  Note that in the source the
`return undefined` inside the `forEach` callback only exits the callback (the
value is not pushed), so the function still returns the accumulated list.
List entries are `Option DocVal` because the default-path branch can place an
undefined entry in the returned array. -/
def extractPartitionKeys (document : DocVal)
    (partitionKeyDefinition : Option PartitionKeyDefinition) :
    Option (List (Option DocVal)) :=
  match partitionKeyDefinition with
  | some pkd =>
    match pkd.paths with
    | some paths =>
      if paths.length > 0 then
        if pkd.systemKey = some true then
          some []
        else
          if paths.length = 1 ∧ paths[0]? = some DEFAULT_PARTITION_KEY_PATH then
            some [extractPartitionKey DEFAULT_PARTITION_KEY_PATH document]
          else
            some (paths.foldl
              (fun partitionKeys path =>
                match extractPartitionKey path document with
                | none => partitionKeys
                | some obj => partitionKeys ++ [some obj])
              [])
      else none
    | none => none
  | none => none

/-- Concrete document for the partial-list bug: field a holds a scalar, field
b holds an object (an unsupported partition-key value type). -/
def docUnsupported : DocVal :=
  DocVal.obj [("a", DocVal.num 1), ("b", DocVal.obj [("c", DocVal.num 2)])]

/-- Two-path definition used with `docUnsupported`. -/
def pkdTwoPaths : PartitionKeyDefinition :=
  { paths := some ["/a", "/b"], systemKey := none }

/- ===================== Diagnostics: levels and shared context ===================== -/

/-- The three diagnostic verbosity levels (`CosmosDbDiagnosticLevel`). -/
inductive CosmosDbDiagnosticLevel where
  | info
  | debug
  | debugUnsafe
deriving DecidableEq

/-- Modelled from the spec: verbosity is a total order from least to most
verbose (info < debug < debugUnsafe). -/
def diagnosticLevelRank : CosmosDbDiagnosticLevel → Nat
  | CosmosDbDiagnosticLevel.info => 0
  | CosmosDbDiagnosticLevel.debug => 1
  | CosmosDbDiagnosticLevel.debugUnsafe => 2

/-- Modelled from the spec: `allowTracing` (diagnosticLevelComparator, not
among the provided sources) is the single level-comparison predicate: a
requested level is visible exactly when the ambient configured level is at
least as verbose. -/
def allowTracing (levelToCheck clientLevel : CosmosDbDiagnosticLevel) : Bool :=
  diagnosticLevelRank levelToCheck ≤ diagnosticLevelRank clientLevel

/-- One recorded gateway request, as built by
`recordSuccessfulNetworkCall` / `recordFailedNetworkCall` in the source. -/
structure GatewayRequestRecord where
  activityId : Option String
  startTimeUTCInMs : Int
  durationInMs : Int
  statusCode : Nat
  subStatusCode : Option Nat
  requestPayloadLengthInBytes : Nat
  responsePayloadLengthInBytes : Nat
  operationType : Option String
  resourceType : Option String
  partitionKeyRangeId : Option String
deriving DecidableEq

/-- Modelled from the spec: the shared per-request `CosmosDiagnosticContext`
(not among the provided sources) holds append-only aggregate lists: successful
network calls, metadata-reclassified calls tagged with their metadata kind,
failed attempts tagged with the retry-attempt number, and endpoint
resolutions. -/
structure CosmosDiagnosticContext where
  networkCalls : List GatewayRequestRecord
  metadataCalls : List (GatewayRequestRecord × String)
  failedAttempts : List (GatewayRequestRecord × Nat)
  endpointResolutions : List String
deriving DecidableEq

/-- Modelled from the spec: record one successful network call (append-only). -/
def recordNetworkCall (ctx : CosmosDiagnosticContext)
    (record : GatewayRequestRecord) : CosmosDiagnosticContext :=
  { ctx with networkCalls := ctx.networkCalls ++ [record] }

/-- Modelled from the spec: record one failed attempt, tagged with the
supplied retry-attempt number (append-only). -/
def recordFailedAttempt (ctx : CosmosDiagnosticContext)
    (record : GatewayRequestRecord) (retryAttemptNumber : Nat) :
    CosmosDiagnosticContext :=
  { ctx with failedAttempts := ctx.failedAttempts ++ [(record, retryAttemptNumber)] }

/-- Modelled from the spec: record one endpoint-resolution decision. -/
def recordEndpointResolutionCtx (ctx : CosmosDiagnosticContext)
    (location : String) : CosmosDiagnosticContext :=
  { ctx with endpointResolutions := ctx.endpointResolutions ++ [location] }

/-- Modelled from the spec: `mergeDiagnostics` folds a child context into the
parent, reclassifying the child's network calls as metadata calls under the
given metadata kind (so they are not double-counted as user-facing calls),
and appending its other aggregate lists. -/
def mergeDiagnostics (parent child : CosmosDiagnosticContext)
    (metadataType : String) : CosmosDiagnosticContext :=
  { parent with
    metadataCalls := parent.metadataCalls
      ++ child.networkCalls.map (fun r => (r, metadataType))
      ++ child.metadataCalls
    failedAttempts := parent.failedAttempts ++ child.failedAttempts
    endpointResolutions := parent.endpointResolutions ++ child.endpointResolutions }

/- ===================== Diagnostics: the node ===================== -/

/-- The node-type tags (`DiagnosticNodeType` in the source). -/
inductive DiagnosticNodeType where
  | clientRequestNode
  | metadataRequestNode
  | httpRequest
  | batchRequest
  | parallelQueryNode
  | defaultQueryNode
  | queryRepairNode
  | backgroundRefreshThread
  | requestAttempts
deriving DecidableEq

/-- The per-request-attempt payload stored under the data blob's
requestData key; the sensitive fields (headers, bodies, url) are populated
only at debug-unsafe verbosity. -/
structure RequestData where
  operationType : Option String
  resourceType : Option String
  requestPayloadLengthInBytes : Nat
  headers : Option (List (String × String))
  requestBody : Option String
  responseBody : Option String
  url : Option String
deriving DecidableEq

/-- The free-form data blob of a diagnostic node, restricted to the keys the
source writes. -/
structure NodeData where
  log : List String
  failedAttempty : Option Bool
  requestData : Option RequestData
  selectedLocation : Option String
  queryRecordsRead : Option Nat
  requestPayloadLengthInBytes : Option Nat
  responsePayloadLengthInBytes : Option Nat
  startTimeUTCInMs : Option Int
  durationInMs : Option Int
deriving DecidableEq

/-- An empty data blob (the constructor's default). -/
def emptyNodeData : NodeData :=
  { log := [], failedAttempty := none, requestData := none,
    selectedLocation := none, queryRecordsRead := none,
    requestPayloadLengthInBytes := none, responsePayloadLengthInBytes := none,
    startTimeUTCInMs := none, durationInMs := none }

/-- The request context consumed by the network-call recorders. -/
structure RequestContext where
  operationType : Option String
  resourceType : Option String
  body : Option String
  headers : List (String × String)
  endpoint : String
  path : String
  partitionKeyRangeId : Option String
deriving DecidableEq

/-- `calculateRequestPayloadLength` (DiagnosticNodeInternal source, bottom):
the body's length when a body is present, otherwise 0. -/
def calculateRequestPayloadLength (requestContext : RequestContext) : Nat :=
  match requestContext.body with
  | some b => b.length
  | none => 0

/-- Modelled from the spec: `prepareURL` (common helpers, not among the
provided sources) joins an endpoint and a path into the resolved URL. -/
def prepareURL (endpoint path : String) : String := endpoint ++ path

/-- Modelled from the spec: the activity-id response-header name
(`Constants.HttpHeaders.ActivityId`, not among the provided sources). -/
def activityIdHeaderName : String := "x-ms-activity-id"

/-- Header lookup on a JS header object. -/
def lookupHeader : List (String × String) → String → Option String
  | [], _ => none
  | (k, v) :: rest, name => if k = name then some v else lookupHeader rest name

/-- `DiagnosticNodeInternal`: id, node type, start timestamp, data blob,
children (in insertion order), duration, parent reference (modelled by id),
shared diagnostic context, and the configured verbosity level fixed at
construction. -/
inductive DiagnosticNodeInternal where
  | mk (id : Nat) (nodeType : DiagnosticNodeType) (startTimeUTCInMs : Int)
      (data : NodeData) (children : List DiagnosticNodeInternal)
      (durationInMs : Int) (parentId : Option Nat)
      (diagnosticCtx : CosmosDiagnosticContext)
      (diagnosticLevel : CosmosDbDiagnosticLevel)

def DiagnosticNodeInternal.id : DiagnosticNodeInternal → Nat
  | DiagnosticNodeInternal.mk i _ _ _ _ _ _ _ _ => i

def DiagnosticNodeInternal.nodeType : DiagnosticNodeInternal → DiagnosticNodeType
  | DiagnosticNodeInternal.mk _ t _ _ _ _ _ _ _ => t

def DiagnosticNodeInternal.startTimeUTCInMs : DiagnosticNodeInternal → Int
  | DiagnosticNodeInternal.mk _ _ s _ _ _ _ _ _ => s

def DiagnosticNodeInternal.data : DiagnosticNodeInternal → NodeData
  | DiagnosticNodeInternal.mk _ _ _ d _ _ _ _ _ => d

def DiagnosticNodeInternal.children :
    DiagnosticNodeInternal → List DiagnosticNodeInternal
  | DiagnosticNodeInternal.mk _ _ _ _ c _ _ _ _ => c

def DiagnosticNodeInternal.durationInMs : DiagnosticNodeInternal → Int
  | DiagnosticNodeInternal.mk _ _ _ _ _ d _ _ _ => d

def DiagnosticNodeInternal.parentId : DiagnosticNodeInternal → Option Nat
  | DiagnosticNodeInternal.mk _ _ _ _ _ _ p _ _ => p

def DiagnosticNodeInternal.diagnosticCtx :
    DiagnosticNodeInternal → CosmosDiagnosticContext
  | DiagnosticNodeInternal.mk _ _ _ _ _ _ _ ctx _ => ctx

def DiagnosticNodeInternal.diagnosticLevel :
    DiagnosticNodeInternal → CosmosDbDiagnosticLevel
  | DiagnosticNodeInternal.mk _ _ _ _ _ _ _ _ l => l

def DiagnosticNodeInternal.setData (n : DiagnosticNodeInternal)
    (d : NodeData) : DiagnosticNodeInternal :=
  match n with
  | DiagnosticNodeInternal.mk i t s _ c du p ctx l =>
    DiagnosticNodeInternal.mk i t s d c du p ctx l

def DiagnosticNodeInternal.setChildren (n : DiagnosticNodeInternal)
    (c : List DiagnosticNodeInternal) : DiagnosticNodeInternal :=
  match n with
  | DiagnosticNodeInternal.mk i t s d _ du p ctx l =>
    DiagnosticNodeInternal.mk i t s d c du p ctx l

def DiagnosticNodeInternal.setParentId (n : DiagnosticNodeInternal)
    (p : Option Nat) : DiagnosticNodeInternal :=
  match n with
  | DiagnosticNodeInternal.mk i t s d c du _ ctx l =>
    DiagnosticNodeInternal.mk i t s d c du p ctx l

def DiagnosticNodeInternal.setCtx (n : DiagnosticNodeInternal)
    (ctx : CosmosDiagnosticContext) : DiagnosticNodeInternal :=
  match n with
  | DiagnosticNodeInternal.mk i t s d c du p _ l =>
    DiagnosticNodeInternal.mk i t s d c du p ctx l

/-- `sanitizeHeaders(headers)` (source lines 43-45): the identity in the
shown source. -/
def DiagnosticNodeInternal.sanitizeHeaders (_n : DiagnosticNodeInternal)
    (headers : List (String × String)) : List (String × String) := headers

/-- `addLog(msg)`: append one message to the data blob's log list. -/
def DiagnosticNodeInternal.addLog (n : DiagnosticNodeInternal)
    (msg : String) : DiagnosticNodeInternal :=
  n.setData { n.data with log := n.data.log ++ [msg] }

/-- `addData(data, msg?, level)` (source lines 127-134): when the effective
level is not the lowest (info) tier, shallow-merge the given patch into the
data blob and optionally append a log line; at info level the call is a
no-op.  The JS object-spread merge of one concrete object literal is embedded
as the corresponding record-update function. -/
def DiagnosticNodeInternal.addData (n : DiagnosticNodeInternal)
    (patch : NodeData → NodeData) (msg : Option String)
    (level : CosmosDbDiagnosticLevel) : DiagnosticNodeInternal :=
  if level ≠ CosmosDbDiagnosticLevel.info then
    let n := n.setData (patch n.data)
    match msg with
    | some m => n.addLog m
    | none => n
  else n

/-- `addChildNode(child, level, metadataType)` (source lines 140-147): merge
the child's diagnostic context into this node's context unconditionally, then
link the child into the children list (setting its parent) only when the
verbosity gate passes.  Returns the updated node together with the child as
the call leaves it. -/
def DiagnosticNodeInternal.addChildNode (n child : DiagnosticNodeInternal)
    (level : CosmosDbDiagnosticLevel) (metadataType : String) :
    DiagnosticNodeInternal × DiagnosticNodeInternal :=
  let n := n.setCtx (mergeDiagnostics n.diagnosticCtx child.diagnosticCtx metadataType)
  if allowTracing level n.diagnosticLevel then
    let child := child.setParentId (some n.id)
    (n.setChildren (n.children ++ [child]), child)
  else
    (n, child)

/-- `initializeChildNode(type, level, data)` (source lines 151-160): when the
verbosity gate passes, create a fresh child (new id, current timestamp, empty
children, duration 0) sharing this node's diagnostic context and configured
level, append it to the children list and return it; otherwise return the
node itself unchanged.  The fresh uuid and the current clock reading are
passed in explicitly. -/
def DiagnosticNodeInternal.initializeChildNode (n : DiagnosticNodeInternal)
    (type : DiagnosticNodeType) (level : CosmosDbDiagnosticLevel)
    (data : NodeData) (newId : Nat) (nowInMs : Int) :
    DiagnosticNodeInternal × DiagnosticNodeInternal :=
  if allowTracing level n.diagnosticLevel then
    let child := DiagnosticNodeInternal.mk newId type nowInMs data [] 0
      (some n.id) n.diagnosticCtx n.diagnosticLevel
    (n.setChildren (n.children ++ [child]), child)
  else
    (n, n)

/-- `recordFailedNetworkCall(startTimeUTCInMs, requestContext,
retryAttemptNumber, statusCode, substatusCode, responseHeaders)` (source
lines 90-116): mark the failed attempt in the data blob, build the gateway
request record, report it to the shared context tagged with the retry-attempt
number, then write the request data into the blob — capturing headers,
request body and resolved URL only at debug-unsafe verbosity.  The clock
reading taken for the duration is passed in explicitly. -/
def DiagnosticNodeInternal.recordFailedNetworkCall (n : DiagnosticNodeInternal)
    (startTimeUTCInMs nowInMs : Int) (requestContext : RequestContext)
    (retryAttemptNumber : Nat) (statusCode : Nat) (substatusCode : Option Nat)
    (responseHeaders : List (String × String)) : DiagnosticNodeInternal :=
  let n := n.addData (fun d => { d with failedAttempty := some true }) none
    n.diagnosticLevel
  let requestPayloadLengthInBytes := calculateRequestPayloadLength requestContext
  let record : GatewayRequestRecord :=
    { activityId := lookupHeader responseHeaders activityIdHeaderName
      startTimeUTCInMs := startTimeUTCInMs
      durationInMs := nowInMs - startTimeUTCInMs
      statusCode := statusCode
      subStatusCode := substatusCode
      requestPayloadLengthInBytes := requestPayloadLengthInBytes
      responsePayloadLengthInBytes := 0
      operationType := requestContext.operationType
      resourceType := requestContext.resourceType
      partitionKeyRangeId := none }
  let n := n.setCtx (recordFailedAttempt n.diagnosticCtx record retryAttemptNumber)
  let requestData : RequestData :=
    { operationType := requestContext.operationType
      resourceType := requestContext.resourceType
      requestPayloadLengthInBytes := requestPayloadLengthInBytes
      headers := none, requestBody := none, responseBody := none, url := none }
  let requestData :=
    if allowTracing CosmosDbDiagnosticLevel.debugUnsafe n.diagnosticLevel then
      { requestData with
        headers := some (n.sanitizeHeaders requestContext.headers)
        requestBody := requestContext.body
        url := some (prepareURL requestContext.endpoint requestContext.path) }
    else requestData
  n.addData
    (fun d => { d with failedAttempty := some true, requestData := some requestData })
    none n.diagnosticLevel

/- ===================== Group-By endpoint component ===================== -/

/-- JS values flowing through query payloads.  `wrapped item2` is the
canonical aggregate wrapper object carrying the aggregate value under its
item2 key; `undef` is JS undefined (a structurally absent field). -/
inductive JVal where
  | undef
  | null
  | num (n : Int)
  | str (s : String)
  | boolean (b : Bool)
  | wrapped (item2 : JVal)
deriving DecidableEq

/-- JS truthiness of a payload value: undefined, null, 0, the empty string
and false are falsy; wrapper objects are truthy. -/
def JVal.truthy : JVal → Bool
  | JVal.undef => false
  | JVal.null => false
  | JVal.num n => n ≠ 0
  | JVal.str s => s ≠ ""
  | JVal.boolean b => b
  | JVal.wrapped _ => true

/-- Modelled from the spec: `extractAggregateResult` (emptyGroup.js, not
among the provided sources) unwraps the aggregate value from the canonical
item2 wrapper; a non-wrapper input has no item2 key and yields undefined
(such inputs do not occur in well-formed payloads). -/
def extractAggregateResult : JVal → JVal
  | JVal.wrapped v => v
  | _ => JVal.undef

/-- The aggregate types of the query's alias-to-aggregate-type map. -/
inductive AggregateType where
  | Average
  | Count
  | Max
  | Min
  | Sum
deriving DecidableEq

/-- Modelled from the spec: the closed set of aggregator variants (sum,
count, average, min, max, and the generic last-write-wins aggregator used
for fields with no declared aggregate type).  Each carries its running
state. -/
inductive Aggregator where
  | sum (acc : Int)
  | count (n : Nat)
  | avg (total : Int) (cnt : Nat)
  | minA (cur : Option Int)
  | maxA (cur : Option Int)
  | staticV (cur : JVal)
deriving DecidableEq

/-- Modelled from the spec: feed one value to an aggregator.  Numeric
aggregators consume numbers (other values leave their state unchanged); the
generic aggregator keeps the last written value. -/
def Aggregator.aggregate : Aggregator → JVal → Aggregator
  | Aggregator.sum acc, JVal.num n => Aggregator.sum (acc + n)
  | Aggregator.sum acc, _ => Aggregator.sum acc
  | Aggregator.count n, _ => Aggregator.count (n + 1)
  | Aggregator.avg t c, JVal.num n => Aggregator.avg (t + n) (c + 1)
  | Aggregator.avg t c, _ => Aggregator.avg t c
  | Aggregator.minA none, JVal.num n => Aggregator.minA (some n)
  | Aggregator.minA (some m), JVal.num n => Aggregator.minA (some (min m n))
  | Aggregator.minA cur, _ => Aggregator.minA cur
  | Aggregator.maxA none, JVal.num n => Aggregator.maxA (some n)
  | Aggregator.maxA (some m), JVal.num n => Aggregator.maxA (some (max m n))
  | Aggregator.maxA cur, _ => Aggregator.maxA cur
  | Aggregator.staticV _, v => Aggregator.staticV v

/-- Modelled from the spec: finalize an aggregator into its result value. -/
def Aggregator.getResult : Aggregator → JVal
  | Aggregator.sum acc => JVal.num acc
  | Aggregator.count n => JVal.num n
  | Aggregator.avg _ 0 => JVal.undef
  | Aggregator.avg t c => JVal.num (t / c)
  | Aggregator.minA (some m) => JVal.num m
  | Aggregator.minA none => JVal.undef
  | Aggregator.maxA (some m) => JVal.num m
  | Aggregator.maxA none => JVal.undef
  | Aggregator.staticV v => v

/-- Modelled from the spec: `createAggregator(aggregateType)` (Aggregators,
not among the provided sources) selects the aggregator variant for a declared
aggregate type; an absent type yields the generic last-write-wins
aggregator. -/
def createAggregator : Option AggregateType → Aggregator
  | some AggregateType.Average => Aggregator.avg 0 0
  | some AggregateType.Count => Aggregator.count 0
  | some AggregateType.Max => Aggregator.maxA none
  | some AggregateType.Min => Aggregator.minA none
  | some AggregateType.Sum => Aggregator.sum 0
  | none => Aggregator.staticV JVal.undef

/-- A group identity: the content hash of the group-by projection values, or
the empty-group sentinel used when a row carries no projection values. -/
inductive GroupId where
  | emptyGroup
  | hash (items : List JVal)
deriving DecidableEq

/-- Modelled from the spec: `hashObject` (utils/hashObject, not among the
provided sources) computes a canonical content hash on which structurally
equal inputs always collide; it is modelled by the canonical value itself. -/
def hashObject (items : List JVal) : GroupId := GroupId.hash items

/-- One row pulled from the inner execution context: optional group-by
projection values and the payload keyed by aggregate alias (a JS object,
i.e. an ordered association list with distinct keys). -/
structure QueryRow where
  groupByItems : Option (List JVal)
  payload : List (String × JVal)
deriving DecidableEq

/-- The group identity of a row (`GroupByEndpointComponent.js` line 37):
the hash of its projection values, or the empty-group sentinel. -/
def groupIdOf (r : QueryRow) : GroupId :=
  match r.groupByItems with
  | some items => hashObject items
  | none => GroupId.emptyGroup

/-- The per-group mapping from aggregate alias to its aggregator, in
insertion order (a JS Map). -/
abbrev GroupAggs := List (String × Aggregator)

/-- The groupings map from group identity to its per-field aggregators, in
insertion order (a JS Map). -/
abbrev Groupings := List (GroupId × GroupAggs)

/-- `this.groupings.get(group)`. -/
def findGrouping : Groupings → GroupId → Option GroupAggs
  | [], _ => none
  | p :: rest, k => if p.1 = k then some p.2 else findGrouping rest k

/-- Mutate the aggregators of one group in place (a JS Map holds each key
once; updating never changes the key list). -/
def updateGrouping (g : Groupings) (k : GroupId) (f : GroupAggs → GroupAggs) :
    Groupings :=
  g.map (fun p => if p.1 = k then (p.1, f p.2) else p)

/-- `aggregators.get(key).aggregate(v)`: feed a value to the aggregator
stored under one alias. -/
def updateAgg (aggs : GroupAggs) (key : String) (v : JVal) : GroupAggs :=
  aggs.map (fun p => if p.1 = key then (p.1, p.2.aggregate v) else p)

/-- The query info consumed by the component: the alias-to-aggregate-type
map supplied by the query planner. -/
structure QueryInfo where
  groupByAliasToAggregateType : String → Option AggregateType

/-- One payload field of a row belonging to an already-seen group
(`GroupByEndpointComponent.js` lines 42-50): a falsy payload value is
replaced by the canonical null-wrapper, the aggregate result is extracted
from the effective value, and fed to that field's existing aggregator. -/
def applyExistingGroupKey (aggs : GroupAggs) (key : String) (v : JVal) :
    GroupAggs :=
  let effectiveGroupByValue := if v.truthy then v else JVal.wrapped JVal.null
  let aggregateResult := extractAggregateResult effectiveGroupByValue
  updateAgg aggs key aggregateResult

/-- One payload field of a row opening a new group
(`GroupByEndpointComponent.js` lines 55-68): create the aggregator for the
alias's declared aggregate type; a declared type receives the extracted
aggregate result of the raw payload value, an undeclared one receives the raw
payload value itself. -/
def newGroupKey (queryInfo : QueryInfo) (grouping : GroupAggs) (key : String)
    (v : JVal) : GroupAggs :=
  let aggregateType := queryInfo.groupByAliasToAggregateType key
  let aggregator := createAggregator aggregateType
  match aggregateType with
  | some _ => grouping ++ [(key, aggregator.aggregate (extractAggregateResult v))]
  | none => grouping ++ [(key, aggregator.aggregate v)]

/-- Process one pulled row (`GroupByEndpointComponent.js` lines 36-70):
compute the group identity; an already-seen group feeds every payload field
through `applyExistingGroupKey`, a first-seen group is inserted and each
payload field builds its aggregator through `newGroupKey`. -/
def processRow (queryInfo : QueryInfo) (g : Groupings) (result : QueryRow) :
    Groupings :=
  let group := groupIdOf result
  match findGrouping g group with
  | some _ =>
    updateGrouping g group (fun aggs =>
      result.payload.foldl (fun aggs kv => applyExistingGroupKey aggs kv.1 kv.2) aggs)
  | none =>
    g ++ [(group,
      result.payload.foldl (fun gr kv => newGroupKey queryInfo gr kv.1 kv.2) [])]

/-- Process one pull outcome's result: absent results (`if (result)`) are
skipped. -/
def processPull (queryInfo : QueryInfo) (g : Groupings) (r : Option QueryRow) :
    Groupings :=
  match r with
  | some result => processRow queryInfo g result
  | none => g

/-- One flat emitted result row: alias to finalized aggregate value. -/
abbrev ResultRow := List (String × JVal)

/-- Finalization (`GroupByEndpointComponent.js` lines 79-86): one flat result
row per group, each field holding its aggregator's result, in grouping
insertion order. -/
def finalizeGroupings (g : Groupings) : List ResultRow :=
  g.map (fun p => p.2.map (fun kv => (kv.1, kv.2.getResult)))

/-- Modelled from the spec: response headers carry request-charge
accounting. -/
structure Headers where
  requestCharge : Int
deriving DecidableEq

/-- Modelled from the spec: `getInitialHeader` (headerUtils, not among the
provided sources) builds a fresh empty header object. -/
def getInitialHeader : Headers := { requestCharge := 0 }

/-- Modelled from the spec: `mergeHeaders` accumulates request-charge
accounting across pulls. -/
def mergeHeaders (a b : Headers) : Headers :=
  { requestCharge := a.requestCharge + b.requestCharge }

/-- Modelled from the spec: the code of the resource-unit cap exceeded error
(`RUCapPerOperationExceededError`, not among the provided sources). -/
def RUCapPerOperationExceededErrorCode : String := "OPERATION_RU_LIMIT_EXCEEDED"

/-- A structured error thrown by the inner execution context: its code and
the partially fetched result list it may carry. -/
structure CosmosError where
  code : Option String
  fetchedResults : Option (List ResultRow)
deriving DecidableEq

/-- One behavior of the inner execution context's `nextItem`: deliver a
(possibly absent) row with response headers, or throw. -/
inductive PullOutcome where
  | ok (result : Option QueryRow) (headers : Headers)
  | err (e : CosmosError)
deriving DecidableEq

/-- The inner execution context is modelled by the outcomes of its remaining
`nextItem` calls; `hasMoreResults` on it reports whether any remain. -/
def innerHasMoreResults (pulls : List PullOutcome) : Bool :=
  !pulls.isEmpty

/-- The component state (`GroupByEndpointComponent` fields): the wrapped
inner execution context, the query info, the groupings map, the buffer of
materialized group results, and the completed flag. -/
structure GroupByEndpointComponent where
  executionContext : List PullOutcome
  queryInfo : QueryInfo
  groupings : Groupings
  aggregateResultArray : List ResultRow
  completed : Bool

/-- The constructor (`GroupByEndpointComponent.js` lines 8-14): empty
groupings, empty buffer, not completed. -/
def GroupByEndpointComponent.init (executionContext : List PullOutcome)
    (queryInfo : QueryInfo) : GroupByEndpointComponent :=
  { executionContext := executionContext, queryInfo := queryInfo,
    groupings := [], aggregateResultArray := [], completed := false }

/-- The drain loop of `nextItem` (`GroupByEndpointComponent.js` lines 30-78):
pull from the inner context while it has more results, merging headers on
every pull and processing each delivered row; a throw from the inner context
is caught, its attached partial result list is cleared when it carries the
resource-unit-cap code, and it is re-thrown, leaving the groupings mutated so
far and the rest of the inner context behind. -/
def drainLoop (queryInfo : QueryInfo) :
    Groupings → Headers → List PullOutcome →
    Except (CosmosError × Groupings × List PullOutcome) (Groupings × Headers)
  | g, hdr, [] => Except.ok (g, hdr)
  | g, hdr, PullOutcome.ok r h :: rest =>
    drainLoop queryInfo (processPull queryInfo g r) (mergeHeaders hdr h) rest
  | g, _, PullOutcome.err e :: rest =>
    Except.error
      (if e.code = some RUCapPerOperationExceededErrorCode then
        { e with fetchedResults := none }
      else e, g, rest)

/-- `nextItem` (`GroupByEndpointComponent.js` lines 15-91): pop a buffered
result when the buffer is non-empty; return an undefined result with fresh
headers when completed; otherwise drain the inner context, finalize every
group into the buffer, set completed, and pop.  JS `Array.pop` removes the
last element.  The success value is the updated component, the returned
result and its headers; a failure value carries the re-thrown error and the
component as the throw leaves it. -/
def GroupByEndpointComponent.nextItem (s : GroupByEndpointComponent) :
    Except (CosmosError × GroupByEndpointComponent)
      (GroupByEndpointComponent × Option ResultRow × Headers) :=
  if s.aggregateResultArray.length > 0 then
    Except.ok ({ s with aggregateResultArray := s.aggregateResultArray.dropLast },
      s.aggregateResultArray.getLast?, getInitialHeader)
  else if s.completed then
    Except.ok (s, none, getInitialHeader)
  else
    match drainLoop s.queryInfo s.groupings getInitialHeader s.executionContext with
    | Except.error (e, g, rest) =>
      Except.error (e, { s with groupings := g, executionContext := rest })
    | Except.ok (g, aggregateHeaders) =>
      let buffer := s.aggregateResultArray ++ finalizeGroupings g
      Except.ok
        ({ s with
            executionContext := []
            groupings := g
            aggregateResultArray := buffer.dropLast
            completed := true },
          buffer.getLast?, aggregateHeaders)

/-- `hasMoreResults` (`GroupByEndpointComponent.js` lines 92-94). -/
def GroupByEndpointComponent.hasMoreResults (s : GroupByEndpointComponent) :
    Bool :=
  innerHasMoreResults s.executionContext || s.aggregateResultArray.length > 0

/- ===================== Batching model for the Group-By claims ===================== -/

/-- A split of the inner source's deliveries into fetch batches, flattened
into the pull stream the component sees: one inner `nextItem` outcome per
delivered (possibly absent) row. -/
def pullsOfBatches (batches : List (List (Option QueryRow))) :
    List PullOutcome :=
  batches.flatten.map (fun r => PullOutcome.ok r { requestCharge := 0 })

/-- Drain one fetch batch into the groupings. -/
def drainBatch (queryInfo : QueryInfo) (g : Groupings)
    (batch : List (Option QueryRow)) : Groupings :=
  batch.foldl (processPull queryInfo) g

/-- The rows the component finally emits for a batched input: drain every
batch in order, then finalize every group. -/
def groupByOutputs (queryInfo : QueryInfo)
    (batches : List (List (Option QueryRow))) : List ResultRow :=
  finalizeGroupings (batches.foldl (drainBatch queryInfo) [])

/-- The domain on which the embedding matches the JS component exactly: each
row's payload keys are distinct, and rows of the same group share the same
payload key list (so every seen-group lookup finds its aggregator). -/
def wellFormedRows (rows : List QueryRow) : Prop :=
  (∀ r ∈ rows, (r.payload.map Prod.fst).Nodup) ∧
  ∀ r ∈ rows, ∀ s ∈ rows, groupIdOf r = groupIdOf s →
    r.payload.map Prod.fst = s.payload.map Prod.fst

instance (rows : List QueryRow) : Decidable (wellFormedRows rows) := by
  unfold wellFormedRows
  infer_instance

/- ===================== Concrete instances used in witnesses ===================== -/

/-- Query info of the spec's GROUP BY example: alias sum declared as a Sum
aggregate, all other aliases undeclared. -/
def sumQueryInfo : QueryInfo :=
  { groupByAliasToAggregateType := fun key =>
      if key = "sum" then some AggregateType.Sum else none }

/-- The spec example row with group projection A and aggregate contribution 3. -/
def rowA3 : QueryRow :=
  { groupByItems := some [JVal.str "A"], payload := [("sum", JVal.wrapped (JVal.num 3))] }

/-- The spec example row with group projection A and aggregate contribution 4. -/
def rowA4 : QueryRow :=
  { groupByItems := some [JVal.str "A"], payload := [("sum", JVal.wrapped (JVal.num 4))] }

/-- The spec example row with group projection B and aggregate contribution 10. -/
def rowB10 : QueryRow :=
  { groupByItems := some [JVal.str "B"], payload := [("sum", JVal.wrapped (JVal.num 10))] }

/-- The three example rows split two-then-one across fetch batches. -/
def batchesA : List (List (Option QueryRow)) := [[some rowA3, some rowA4], [some rowB10]]

/-- The three example rows split one-then-two, with an empty delivery
(an inner pull yielding no row) inserted. -/
def batchesB : List (List (Option QueryRow)) := [[some rowA3], [none, some rowA4, some rowB10]]

/-- Query info declaring no aggregate type for any alias. -/
def staticQueryInfo : QueryInfo := { groupByAliasToAggregateType := fun _ => none }

/-- A row whose payload field c is structurally absent (JS undefined). -/
def rowAbsentField : QueryRow :=
  { groupByItems := some [JVal.str "A"], payload := [("c", JVal.undef)] }

/-- The same row with field c holding the canonical null-wrapper instead. -/
def rowWrappedNullField : QueryRow :=
  { groupByItems := some [JVal.str "A"], payload := [("c", JVal.wrapped JVal.null)] }

/-- A resource-unit-cap-exceeded error carrying a partial result list. -/
def ruError : CosmosError :=
  { code := some RUCapPerOperationExceededErrorCode,
    fetchedResults := some [[("sum", JVal.num 1)]] }

/-- A component whose inner context throws the RU error on the first pull. -/
def errorComponent : GroupByEndpointComponent :=
  GroupByEndpointComponent.init [PullOutcome.err ruError] sumQueryInfo

/-- A component in the exhausted state: inner drained, buffer empty,
completed set. -/
def exhaustedComponent : GroupByEndpointComponent :=
  { executionContext := [], queryInfo := sumQueryInfo, groupings := [],
    aggregateResultArray := [], completed := true }

/-- An empty shared diagnostic context. -/
def emptyDiagnosticContext : CosmosDiagnosticContext :=
  { networkCalls := [], metadataCalls := [], failedAttempts := [],
    endpointResolutions := [] }

/-- A sample diagnostic node at debug verbosity with a clean data blob. -/
def sampleNode : DiagnosticNodeInternal :=
  DiagnosticNodeInternal.mk 1 DiagnosticNodeType.clientRequestNode 0
    emptyNodeData [] 0 none emptyDiagnosticContext CosmosDbDiagnosticLevel.debug

/-- A sample request context for the failed-network-call witness. -/
def sampleRequestContext : RequestContext :=
  { operationType := some "read", resourceType := some "docs",
    body := some "req-body", headers := [("h", "v")],
    endpoint := "https://contoso.example", path := "/dbs/d/colls/c",
    partitionKeyRangeId := none }

/- ===================== Theorems ===================== -/

/-- C3: partition-key extraction distinguishes its three outcomes and never
conflates them: a resolvable path yields the scalar, a missing path yields
the none sentinel, an explicit null-sentinel value yields the null sentinel
(the three pairwise distinct), and a 3-path hierarchical definition against a
document missing only the third path succeeds with the first two values and a
none sentinel rather than failing. -/
theorem extractPartitionKey_three_outcomes :
    extractPartitionKey "/a/b"
      (DocVal.obj [("a", DocVal.obj [("b", DocVal.str "x")])]) =
      some (DocVal.str "x")
    ∧ extractPartitionKey "/a/b" (DocVal.obj []) = some DocVal.noneSentinel
    ∧ extractPartitionKey "/a" (DocVal.obj [("a", DocVal.nullSentinel)]) =
      some DocVal.nullSentinel
    ∧ DocVal.nullSentinel ≠ DocVal.noneSentinel
    ∧ DocVal.nullSentinel ≠ DocVal.null
    ∧ DocVal.noneSentinel ≠ DocVal.null
    ∧ extractPartitionKeys
        (DocVal.obj [("a", DocVal.str "v1"), ("b", DocVal.str "v2")])
        (some { paths := some ["/a", "/b", "/c"], systemKey := none }) =
      some [some (DocVal.str "v1"), some (DocVal.str "v2"),
        some DocVal.noneSentinel] := by
  refine ⟨rfl, rfl, rfl, ?_, ?_, ?_, rfl⟩ <;> simp

/-- C2 (code bug): `extractPartitionKeys` is documented to return undefined
when an unsupported partition key value type is encountered, but the
`return undefined` inside the `paths.forEach` callback only exits the
callback, so for the two-path definition over `docUnsupported` (whose second
path lands on an object) the function returns a one-entry partial list
instead of undefined. -/
theorem extractPartitionKeys_partial_on_unsupported :
    extractPartitionKey "/b" docUnsupported = none
    ∧ extractPartitionKeys docUnsupported (some pkdTwoPaths) =
      some [some (DocVal.num 1)]
    ∧ pkdTwoPaths.paths.map List.length = some 2 :=
  ⟨rfl, rfl, rfl⟩

/-- C4: `addChildNode` merges the child's diagnostic context into the
current node's context in every case (even when the verbosity gate fails),
and appends the child to the children list — setting its parent — exactly
when the verbosity gate for the given level passes. -/
theorem addChildNode_merges_and_gates (n child : DiagnosticNodeInternal)
    (level : CosmosDbDiagnosticLevel) (metadataType : String) :
    (n.addChildNode child level metadataType).1.diagnosticCtx =
      mergeDiagnostics n.diagnosticCtx child.diagnosticCtx metadataType
    ∧ (n.addChildNode child level metadataType).1.children =
      (if allowTracing level n.diagnosticLevel then
        n.children ++ [child.setParentId (some n.id)]
      else n.children)
    ∧ (n.addChildNode child level metadataType).2 =
      (if allowTracing level n.diagnosticLevel then
        child.setParentId (some n.id)
      else child) := by
  cases n with
  | mk i t st d c du p ctx l =>
    by_cases h : allowTracing level l = true <;>
      simp [DiagnosticNodeInternal.addChildNode, DiagnosticNodeInternal.setCtx,
        DiagnosticNodeInternal.setChildren, DiagnosticNodeInternal.diagnosticCtx,
        DiagnosticNodeInternal.diagnosticLevel, DiagnosticNodeInternal.children,
        DiagnosticNodeInternal.id, h]

/-- C5: `initializeChildNode` returns the node itself with its children list
untouched when the requested level fails the verbosity gate, and otherwise
returns a freshly created child — appended to the children list — that
shares the parent's diagnostic context and configured verbosity level. -/
theorem initializeChildNode_gates (n : DiagnosticNodeInternal)
    (type : DiagnosticNodeType) (level : CosmosDbDiagnosticLevel)
    (data : NodeData) (newId : Nat) (nowInMs : Int) :
    n.initializeChildNode type level data newId nowInMs =
      (if allowTracing level n.diagnosticLevel then
        (n.setChildren (n.children ++
          [DiagnosticNodeInternal.mk newId type nowInMs data [] 0 (some n.id)
            n.diagnosticCtx n.diagnosticLevel]),
          DiagnosticNodeInternal.mk newId type nowInMs data [] 0 (some n.id)
            n.diagnosticCtx n.diagnosticLevel)
      else (n, n))
    ∧ (n.initializeChildNode type level data newId nowInMs).2.diagnosticCtx =
      n.diagnosticCtx
    ∧ (n.initializeChildNode type level data newId nowInMs).2.diagnosticLevel =
      n.diagnosticLevel := by
  cases n with
  | mk i t st d c du p ctx l =>
    by_cases h : allowTracing level l = true <;>
      simp [DiagnosticNodeInternal.initializeChildNode,
        DiagnosticNodeInternal.setChildren, DiagnosticNodeInternal.diagnosticCtx,
        DiagnosticNodeInternal.diagnosticLevel, DiagnosticNodeInternal.children,
        DiagnosticNodeInternal.id, h]

/-- C7: `hasMoreResults` is true exactly when the inner execution context
reports more results or the buffer of materialized group results is
non-empty; it is false exactly when the inner source is exhausted and the
buffer drained, and on a freshly constructed component it is true exactly
when the inner source is non-empty. -/
theorem groupBy_hasMoreResults_iff (s : GroupByEndpointComponent)
    (ec : List PullOutcome) (qi : QueryInfo) :
    (s.hasMoreResults = true ↔
      (innerHasMoreResults s.executionContext = true ∨
        s.aggregateResultArray ≠ []))
    ∧ (s.hasMoreResults = false ↔
      (s.executionContext = [] ∧ s.aggregateResultArray = []))
    ∧ ((GroupByEndpointComponent.init ec qi).hasMoreResults = true ↔ ec ≠ []) := by
  refine ⟨?_, ?_, ?_⟩ <;>
    simp [GroupByEndpointComponent.hasMoreResults, innerHasMoreResults,
      GroupByEndpointComponent.init, List.isEmpty_iff, List.length_pos,
      or_comm]

/-- C10: once the completed flag is set and the result buffer is empty,
`nextItem` returns an undefined result with fresh empty headers, pulls
nothing from the inner execution context, and leaves the component state
entirely unchanged. -/
theorem groupBy_exhausted_stable (s : GroupByEndpointComponent)
    (hc : s.completed = true) (hb : s.aggregateResultArray = []) :
    s.nextItem = Except.ok (s, none, getInitialHeader) := by
  simp [GroupByEndpointComponent.nextItem, hb, hc]

/-- C10 witness: the concrete exhausted component is stable under
`nextItem`. -/
theorem groupBy_exhausted_stable_witness :
    (exhaustedComponent.completed = true
      ∧ exhaustedComponent.aggregateResultArray = [])
    ∧ exhaustedComponent.nextItem =
      Except.ok (exhaustedComponent, none, getInitialHeader) :=
  ⟨⟨rfl, rfl⟩, groupBy_exhausted_stable exhaustedComponent rfl rfl⟩

/-- C9 counterexample: a payload field that is structurally absent is NOT
replaced by the canonical null-wrapper when the row opens a new group — the
raw absent value is fed to the aggregator, so processing the row differs
from processing the same row with the field replaced by the null-wrapper. -/
theorem groupBy_new_group_feeds_raw_cex :
    processRow staticQueryInfo [] rowAbsentField =
      [(GroupId.hash [JVal.str "A"], [("c", Aggregator.staticV JVal.undef)])]
    ∧ processRow staticQueryInfo [] rowAbsentField ≠
      processRow staticQueryInfo [] rowWrappedNullField :=
  ⟨rfl, by decide⟩

/-- C9 amended: only in the already-seen-group branch is an absent (falsy)
payload value replaced by the canonical null-wrapper before being fed to the
field's aggregator — processing an absent or null value there is identical to
processing the null-wrapper; in the new-group branch no replacement occurs
and the raw payload value reaches the aggregator. -/
theorem groupBy_null_replacement_seen_branch_only (aggs : GroupAggs)
    (key : String) :
    applyExistingGroupKey aggs key JVal.undef =
      applyExistingGroupKey aggs key (JVal.wrapped JVal.null)
    ∧ applyExistingGroupKey aggs key JVal.null =
      applyExistingGroupKey aggs key (JVal.wrapped JVal.null)
    ∧ newGroupKey staticQueryInfo [] "c" JVal.undef =
      [("c", Aggregator.staticV JVal.undef)] :=
  ⟨rfl, rfl, rfl⟩

/-- C6: one `recordFailedNetworkCall` call appends exactly one failed
attempt, tagged with the supplied retry-attempt number, to the shared
diagnostic context at every verbosity level, while headers, request body and
resolved URL are captured into the node's data exactly at debug-unsafe
verbosity. -/
theorem recordFailedNetworkCall_counts_once (n : DiagnosticNodeInternal)
    (startTimeUTCInMs nowInMs : Int) (requestContext : RequestContext)
    (retryAttemptNumber : Nat) (statusCode : Nat) (substatusCode : Option Nat)
    (responseHeaders : List (String × String))
    (hrd : n.data.requestData = none) :
    ((n.recordFailedNetworkCall startTimeUTCInMs nowInMs requestContext
        retryAttemptNumber statusCode substatusCode
        responseHeaders).diagnosticCtx.failedAttempts =
      n.diagnosticCtx.failedAttempts ++
        [({ activityId := lookupHeader responseHeaders activityIdHeaderName
            startTimeUTCInMs := startTimeUTCInMs
            durationInMs := nowInMs - startTimeUTCInMs
            statusCode := statusCode
            subStatusCode := substatusCode
            requestPayloadLengthInBytes :=
              calculateRequestPayloadLength requestContext
            responsePayloadLengthInBytes := 0
            operationType := requestContext.operationType
            resourceType := requestContext.resourceType
            partitionKeyRangeId := none }, retryAttemptNumber)])
    ∧ ((∃ rd, (n.recordFailedNetworkCall startTimeUTCInMs nowInMs
        requestContext retryAttemptNumber statusCode substatusCode
        responseHeaders).data.requestData = some rd
        ∧ rd.headers ≠ none ∧ rd.url ≠ none) ↔
      n.diagnosticLevel = CosmosDbDiagnosticLevel.debugUnsafe) := by
  cases n with
  | mk i t st d c du p ctx l =>
    cases l <;>
      simp_all [DiagnosticNodeInternal.recordFailedNetworkCall,
        DiagnosticNodeInternal.addData, DiagnosticNodeInternal.addLog,
        DiagnosticNodeInternal.setData, DiagnosticNodeInternal.setCtx,
        DiagnosticNodeInternal.data, DiagnosticNodeInternal.diagnosticCtx,
        DiagnosticNodeInternal.diagnosticLevel,
        DiagnosticNodeInternal.sanitizeHeaders,
        recordFailedAttempt, allowTracing, diagnosticLevelRank]

/-- C6 witness: the property instantiated at the sample node (debug
verbosity) and request context. -/
theorem recordFailedNetworkCall_counts_once_witness :
    sampleNode.data.requestData = none
    ∧ (((sampleNode.recordFailedNetworkCall 5 9 sampleRequestContext 2 503
          (some 20) [("x-ms-activity-id", "abc")]).diagnosticCtx.failedAttempts =
        sampleNode.diagnosticCtx.failedAttempts ++
          [({ activityId :=
                lookupHeader [("x-ms-activity-id", "abc")] activityIdHeaderName
              startTimeUTCInMs := 5
              durationInMs := 9 - 5
              statusCode := 503
              subStatusCode := some 20
              requestPayloadLengthInBytes :=
                calculateRequestPayloadLength sampleRequestContext
              responsePayloadLengthInBytes := 0
              operationType := sampleRequestContext.operationType
              resourceType := sampleRequestContext.resourceType
              partitionKeyRangeId := none }, 2)])
      ∧ ((∃ rd, (sampleNode.recordFailedNetworkCall 5 9 sampleRequestContext 2
          503 (some 20) [("x-ms-activity-id", "abc")]).data.requestData = some rd
          ∧ rd.headers ≠ none ∧ rd.url ≠ none) ↔
        sampleNode.diagnosticLevel = CosmosDbDiagnosticLevel.debugUnsafe)) :=
  ⟨rfl, recordFailedNetworkCall_counts_once sampleNode 5 9 sampleRequestContext
    2 503 (some 20) [("x-ms-activity-id", "abc")] rfl⟩

/-- Helper: the drain loop on a run of successful pulls followed by a throw
processes the successful pulls into the groupings and propagates the
(possibly stripped) error together with the state left behind. -/
theorem drainLoop_first_error (qi : QueryInfo) (e : CosmosError)
    (rest : List PullOutcome) :
    ∀ (pre : List (Option QueryRow × Headers)) (g : Groupings) (hdr : Headers),
      drainLoop qi g hdr
          (pre.map (fun p => PullOutcome.ok p.1 p.2) ++ PullOutcome.err e :: rest) =
        Except.error
          (if e.code = some RUCapPerOperationExceededErrorCode then
            { e with fetchedResults := none }
          else e,
          pre.foldl (fun g p => processPull qi g p.1) g, rest) := by
  intro pre
  induction pre with
  | nil => intro g hdr; rfl
  | cons p pre ih => intro g hdr; simpa [drainLoop] using ih (processPull qi g p.1) (mergeHeaders hdr p.2)

/-- C8: an error thrown by the inner execution context during the drain loop
propagates to the caller: when it carries the resource-unit-cap-exceeded
code its attached partial result list is cleared before the re-throw, and
any other error is re-thrown unchanged. -/
theorem groupBy_error_propagation (s : GroupByEndpointComponent)
    (pre : List (Option QueryRow × Headers)) (e : CosmosError)
    (rest : List PullOutcome)
    (hb : s.aggregateResultArray = []) (hc : s.completed = false)
    (hec : s.executionContext =
      pre.map (fun p => PullOutcome.ok p.1 p.2) ++ PullOutcome.err e :: rest) :
    s.nextItem = Except.error
      (if e.code = some RUCapPerOperationExceededErrorCode then
        { e with fetchedResults := none }
      else e,
      { s with
          groupings := pre.foldl (fun g p => processPull s.queryInfo g p.1) s.groupings
          executionContext := rest }) := by
  rw [GroupByEndpointComponent.nextItem, hec]
  simp [hb, hc, drainLoop_first_error]

/-- C8 witness: the component whose first inner pull throws the RU-cap error
re-throws it with the partial result list cleared. -/
theorem groupBy_error_propagation_witness :
    (errorComponent.aggregateResultArray = []
      ∧ errorComponent.completed = false
      ∧ errorComponent.executionContext =
        [].map (fun (p : Option QueryRow × Headers) => PullOutcome.ok p.1 p.2)
          ++ PullOutcome.err ruError :: [])
    ∧ errorComponent.nextItem = Except.error
      (if ruError.code = some RUCapPerOperationExceededErrorCode then
        { ruError with fetchedResults := none }
      else ruError,
      { errorComponent with
          groupings :=
            [].foldl (fun g (p : Option QueryRow × Headers) =>
              processPull errorComponent.queryInfo g p.1) errorComponent.groupings
          executionContext := [] }) :=
  ⟨⟨rfl, rfl, rfl⟩,
    groupBy_error_propagation errorComponent [] ruError [] rfl rfl rfl⟩

/-- Helper: draining the batches in order is the same as processing the
flattened pull stream, because the drain loop pulls row by row until the
inner source is exhausted. -/
theorem foldl_drainBatch_flatten (qi : QueryInfo)
    (batches : List (List (Option QueryRow))) :
    ∀ g : Groupings,
      batches.foldl (drainBatch qi) g = batches.flatten.foldl (processPull qi) g := by
  induction batches with
  | nil => intro g; rfl
  | cons b bs ih =>
    intro g
    simp only [List.foldl_cons, List.flatten_cons, List.foldl_append]
    exact ih (drainBatch qi g b)

/-- Helper: absent pull results are skipped, so processing the pull stream
is processing the delivered rows. -/
theorem foldl_processPull_filterMap (qi : QueryInfo)
    (l : List (Option QueryRow)) :
    ∀ g : Groupings,
      l.foldl (processPull qi) g = (l.filterMap id).foldl (processRow qi) g := by
  induction l with
  | nil => intro g; rfl
  | cons r l ih =>
    intro g
    cases r with
    | none => simpa [processPull] using ih g
    | some row => simpa [processPull] using ih (processRow qi g row)

/-- Helper: updating one group's aggregators in place never changes the key
list of the groupings map. -/
theorem updateGrouping_keys (g : Groupings) (k : GroupId)
    (f : GroupAggs → GroupAggs) :
    (updateGrouping g k f).map Prod.fst = g.map Prod.fst := by
  induction g with
  | nil => rfl
  | cons p g ih =>
    by_cases h : p.1 = k <;> simp [updateGrouping, h] at ih ⊢ <;> exact ih

/-- Helper: the groupings lookup misses exactly when the key is absent. -/
theorem findGrouping_eq_none_iff (g : Groupings) (k : GroupId) :
    findGrouping g k = none ↔ k ∉ g.map Prod.fst := by
  induction g with
  | nil => simp [findGrouping]
  | cons p g ih =>
    by_cases h : p.1 = k
    · simp [findGrouping, h]
    · have hne : k ≠ p.1 := fun he => h he.symm
      simp [findGrouping, h, ih, hne]

/-- Helper: processing one row leaves the group-key list unchanged for a
seen group and appends the new group identity otherwise. -/
theorem keys_processRow (qi : QueryInfo) (g : Groupings) (r : QueryRow) :
    (processRow qi g r).map Prod.fst =
      if groupIdOf r ∈ g.map Prod.fst then g.map Prod.fst
      else g.map Prod.fst ++ [groupIdOf r] := by
  unfold processRow
  dsimp only
  cases h : findGrouping g (groupIdOf r) with
  | none =>
    have hmem := (findGrouping_eq_none_iff g (groupIdOf r)).mp h
    simp [hmem]
  | some aggs =>
    have hmem : groupIdOf r ∈ g.map Prod.fst := by
      by_contra hn
      rw [← findGrouping_eq_none_iff] at hn
      simp [hn] at h
    simp [hmem, updateGrouping_keys]

/-- Helper: the group keys after folding a row list are exactly the group
identities seen (plus those already present). -/
theorem mem_keys_foldl_processRow (qi : QueryInfo) (rows : List QueryRow)
    (x : GroupId) :
    ∀ g : Groupings,
      (x ∈ (rows.foldl (processRow qi) g).map Prod.fst ↔
        x ∈ g.map Prod.fst ∨ x ∈ rows.map groupIdOf) := by
  induction rows with
  | nil => intro g; simp
  | cons r rows ih =>
    intro g
    rw [List.foldl_cons, ih (processRow qi g r), keys_processRow]
    by_cases h : groupIdOf r ∈ g.map Prod.fst
    · simp only [h, if_true, List.map_cons, List.mem_cons]
      constructor
      · rintro (hx | hx)
        · exact Or.inl hx
        · exact Or.inr (Or.inr hx)
      · rintro (hx | rfl | hx)
        · exact Or.inl hx
        · exact Or.inl h
        · exact Or.inr hx
    · simp only [h, if_false, List.map_cons, List.mem_cons, List.mem_append,
        List.mem_singleton]
      tauto

/-- Helper: folding rows preserves distinctness of the group-key list. -/
theorem nodup_keys_foldl_processRow (qi : QueryInfo) (rows : List QueryRow) :
    ∀ g : Groupings, (g.map Prod.fst).Nodup →
      ((rows.foldl (processRow qi) g).map Prod.fst).Nodup := by
  induction rows with
  | nil => intro g hg; simpa using hg
  | cons r rows ih =>
    intro g hg
    rw [List.foldl_cons]
    apply ih
    rw [keys_processRow]
    by_cases h : groupIdOf r ∈ g.map Prod.fst
    · simpa [h] using hg
    · simp [h, List.nodup_append, hg]

/-- Helper: the number of emitted group rows equals the number of distinct
group identities among the delivered rows. -/
theorem groupByOutputs_length (qi : QueryInfo)
    (batches : List (List (Option QueryRow))) :
    (groupByOutputs qi batches).length =
      ((batches.flatten.filterMap id).map groupIdOf).dedup.length := by
  unfold groupByOutputs finalizeGroupings
  rw [foldl_drainBatch_flatten, foldl_processPull_filterMap]
  have hnodup : (((batches.flatten.filterMap id).foldl (processRow qi) []).map Prod.fst).Nodup :=
    nodup_keys_foldl_processRow qi (batches.flatten.filterMap id) [] (by simp)
  have hmem : ∀ x, x ∈ ((batches.flatten.filterMap id).foldl (processRow qi) []).map Prod.fst ↔
      x ∈ (batches.flatten.filterMap id).map groupIdOf := by
    intro x
    simpa using mem_keys_foldl_processRow qi (batches.flatten.filterMap id) x []
  have h3 : (((batches.flatten.filterMap id).foldl (processRow qi) []).map Prod.fst).toFinset =
      ((batches.flatten.filterMap id).map groupIdOf).dedup.toFinset := by
    ext x
    rw [List.mem_toFinset, List.mem_toFinset, List.mem_dedup]
    exact hmem x
  calc (((batches.flatten.filterMap id).foldl (processRow qi) []).map
        (fun p => p.2.map (fun kv => (kv.1, kv.2.getResult)))).length
      = ((batches.flatten.filterMap id).foldl (processRow qi) []).length :=
        List.length_map _ _
    _ = (((batches.flatten.filterMap id).foldl (processRow qi) []).map Prod.fst).length :=
        (List.length_map _ _).symm
    _ = (((batches.flatten.filterMap id).foldl (processRow qi) []).map Prod.fst).toFinset.card :=
        (List.toFinset_card_of_nodup hnodup).symm
    _ = ((batches.flatten.filterMap id).map groupIdOf).dedup.toFinset.card := by rw [h3]
    _ = ((batches.flatten.filterMap id).map groupIdOf).dedup.length :=
        List.toFinset_card_of_nodup (List.nodup_dedup _)

/-- Helper: on a throw-free pull stream the drain loop succeeds and folds
every delivered row into the groupings. -/
theorem drainLoop_all_ok (qi : QueryInfo) (l : List (Option QueryRow)) :
    ∀ (g : Groupings) (hdr : Headers), ∃ h,
      drainLoop qi g hdr (l.map (fun r => PullOutcome.ok r { requestCharge := 0 })) =
        Except.ok (l.foldl (processPull qi) g, h) := by
  induction l with
  | nil => intro g hdr; exact ⟨hdr, rfl⟩
  | cons r l ih =>
    intro g hdr
    simpa [drainLoop] using ih (processPull qi g r) (mergeHeaders hdr { requestCharge := 0 })

/-- Helper: the first `nextItem` call on a freshly constructed component
whose drain succeeds finalizes every group into the buffer, sets completed,
and pops the last buffered row. -/
theorem nextItem_fresh (qi : QueryInfo) (pulls : List PullOutcome)
    (g : Groupings) (hdr : Headers)
    (hd : drainLoop qi [] getInitialHeader pulls = Except.ok (g, hdr)) :
    (GroupByEndpointComponent.init pulls qi).nextItem =
      Except.ok
        ({ executionContext := []
           queryInfo := qi
           groupings := g
           aggregateResultArray := (finalizeGroupings g).dropLast
           completed := true },
          (finalizeGroupings g).getLast?, hdr) := by
  simp [GroupByEndpointComponent.nextItem, GroupByEndpointComponent.init, hd]

/-- C1: for rows delivered by the inner execution context, however they are
split across fetch batches, the emitted result set is a function of the
delivered row sequence alone (every aggregate field's value is independent of
batch boundaries), the component emits exactly one result row per distinct
group identity, and the first `nextItem` call after construction drains the
inner source completely, queues exactly those rows and enters the completed
state. -/
theorem groupBy_batching_independent (qi : QueryInfo)
    (b1 b2 : List (List (Option QueryRow)))
    (hsame : b1.flatten.filterMap id = b2.flatten.filterMap id)
    (_hwf : wellFormedRows (b1.flatten.filterMap id)) :
    groupByOutputs qi b1 = groupByOutputs qi b2
    ∧ (groupByOutputs qi b1).length =
      ((b1.flatten.filterMap id).map groupIdOf).dedup.length
    ∧ ∃ (g : Groupings) (hdr : Headers),
      (GroupByEndpointComponent.init (pullsOfBatches b1) qi).nextItem =
        Except.ok
          ({ executionContext := []
             queryInfo := qi
             groupings := g
             aggregateResultArray := (groupByOutputs qi b1).dropLast
             completed := true },
            (groupByOutputs qi b1).getLast?, hdr) := by
  have hout1 : groupByOutputs qi b1 =
      finalizeGroupings ((b1.flatten.filterMap id).foldl (processRow qi) []) := by
    unfold groupByOutputs
    rw [foldl_drainBatch_flatten, foldl_processPull_filterMap]
  have hout2 : groupByOutputs qi b2 =
      finalizeGroupings ((b2.flatten.filterMap id).foldl (processRow qi) []) := by
    unfold groupByOutputs
    rw [foldl_drainBatch_flatten, foldl_processPull_filterMap]
  refine ⟨by rw [hout1, hout2, hsame], groupByOutputs_length qi b1, ?_⟩
  obtain ⟨hdr, hd⟩ := drainLoop_all_ok qi b1.flatten [] getInitialHeader
  refine ⟨b1.flatten.foldl (processPull qi) [], hdr, ?_⟩
  have hge : groupByOutputs qi b1 =
      finalizeGroupings (b1.flatten.foldl (processPull qi) []) := by
    unfold groupByOutputs
    rw [foldl_drainBatch_flatten]
  rw [hge]
  exact nextItem_fresh qi (pullsOfBatches b1) _ hdr hd

/-- C1 witness: the spec's example rows (A:3, A:4, B:10) under two different
batch splits — one of them containing an empty delivery — yield the same two
output rows, one per distinct group. -/
theorem groupBy_batching_independent_witness :
    (batchesA.flatten.filterMap id = batchesB.flatten.filterMap id
      ∧ wellFormedRows (batchesA.flatten.filterMap id))
    ∧ groupByOutputs sumQueryInfo batchesA = groupByOutputs sumQueryInfo batchesB
    ∧ (groupByOutputs sumQueryInfo batchesA).length =
      ((batchesA.flatten.filterMap id).map groupIdOf).dedup.length
    ∧ ∃ (g : Groupings) (hdr : Headers),
      (GroupByEndpointComponent.init (pullsOfBatches batchesA) sumQueryInfo).nextItem =
        Except.ok
          ({ executionContext := []
             queryInfo := sumQueryInfo
             groupings := g
             aggregateResultArray := (groupByOutputs sumQueryInfo batchesA).dropLast
             completed := true },
            (groupByOutputs sumQueryInfo batchesA).getLast?, hdr) :=
  ⟨⟨by decide, by decide⟩,
    groupBy_batching_independent sumQueryInfo batchesA batchesB (by decide) (by decide)⟩
